import Mathlib

/-!
# Device-flow polling client (`main.go`)

A shallow embedding of `main`, `PollAccessToken` and `HandleAccessToken`.

The program talks to the outside through three library calls only: `time.Now`,
`client.Do` (followed by `ioutil.ReadAll` and `json.Unmarshal`) and `time.Sleep`.
What the outside answers is collected in a `World`; what the program does is
collected in a trace of `Event`s together with the way the process ends (`Exit`).
Console and log lines are not recorded, except the greeting, whose display name
is carried by `Exit.success`.
-/

namespace DeviceFlow

/-! ## Constants (lines 19-22 and 130-137) -/

def clientId : String := "a5db2e56355d5992c59f"

def debug : Bool := true

def AuthorizationPending : String := "authorization_pending"
def SlowDown : String := "slow_down"
def ExpiredToken : String := "expired_token"
def UnsupportedGrantType : String := "unsupported_grant_type"
def IncorrectClientCredentials : String := "incorrect_client_credentials"
def AccessDenied : String := "access_denied"

/-! ## Data model (lines 78-84, 119-127, 186-188) -/

structure DeviceCodeResponse where
  DeviceCode : String
  UserCode : String
  VerificationUri : String
  ExpiresIn : Int
  Interval : Int
deriving DecidableEq, Repr

structure AccessTokenResponse where
  AccessToken : String
  TokenType : String
  Scope : String
  Error : String
  ErrorDescription : String
  ErrorUri : String
  Interval : Int
deriving DecidableEq, Repr

structure UserDataResponse where
  Name : String
deriving DecidableEq, Repr

/-- The zero value of `var accessToken AccessTokenResponse` (line 168). -/
def AccessTokenResponse.zero : AccessTokenResponse :=
  { AccessToken := "", TokenType := "", Scope := "", Error := "",
    ErrorDescription := "", ErrorUri := "", Interval := 0 }

/-- The zero value of `var userData UserDataResponse` (line 211). -/
def UserDataResponse.zero : UserDataResponse := { Name := "" }

/-! ## Machine integers and durations -/

/-- Two's-complement wrap of an integer into the range of `int64`. -/
def wrapInt64 (x : Int) : Int := (x + 2 ^ 63) % 2 ^ 64 - 2 ^ 63

/-- The expression `time.Duration(s) * time.Second` (lines 29, 37, 49, 55): a
duration is an `int64` count of nanoseconds, and the product wraps. -/
def durationSeconds (s : Int) : Int := wrapInt64 (s * 1000000000)

/-! ## JSON bodies and `json.Unmarshal`

A body is kept at the level of its parsed members. `json.Unmarshal` into a struct
walks the members of the object in order; a member whose key matches the json
tag of a field (exactly, or up to case folding) is stored into that field, any
other member is skipped. A value of the wrong JSON type makes `Unmarshal` return
an error. -/

inductive JValue
  | null
  | str (s : String)
  | num (n : Int)
  | other
deriving DecidableEq, Repr

inductive Body
  | malformed
  | object (members : List (String × JValue))
deriving DecidableEq, Repr

/-- Case folding of one rune, as far as it can reach an ASCII letter: upper and
lower case are identified, and so are U+017F with `s` and U+212A with `k`. -/
def foldRune (c : Char) : Char :=
  if c.toNat = 0x17F then 's'
  else if c.toNat = 0x212A then 'k'
  else if 65 ≤ c.toNat ∧ c.toNat ≤ 90 then Char.ofNat (c.toNat + 32)
  else c

def foldName (s : String) : List Char := s.data.map foldRune

/-- Does the object key `key` select the field whose json tag is `tag`? -/
def keyMatches (tag key : String) : Bool :=
  decide (key = tag) || decide (foldName key = foldName tag)

/-- Storing a JSON value into a `string` field; `none` is a type error. -/
def decodeString (v : JValue) (old : String) : Option String :=
  match v with
  | .null => some old
  | .str s => some s
  | .num _ => none
  | .other => none

/-- Storing a JSON value into an `int` field (64 bits); `none` is a type or
range error. -/
def decodeInt (v : JValue) (old : Int) : Option Int :=
  match v with
  | .null => some old
  | .num n => if -(2 ^ 63) ≤ n ∧ n < 2 ^ 63 then some n else none
  | .str _ => none
  | .other => none

/-- One object member stored into an `AccessTokenResponse`, by the json tags of
lines 120-126. The tag of `Interval` is `"interval "`, with a trailing blank. -/
def AccessTokenResponse.setMember (r : AccessTokenResponse) (key : String) (v : JValue) :
    Option AccessTokenResponse :=
  if keyMatches "access_token" key then
    (decodeString v r.AccessToken).map fun s => { r with AccessToken := s }
  else if keyMatches "token_type" key then
    (decodeString v r.TokenType).map fun s => { r with TokenType := s }
  else if keyMatches "scope" key then
    (decodeString v r.Scope).map fun s => { r with Scope := s }
  else if keyMatches "error" key then
    (decodeString v r.Error).map fun s => { r with Error := s }
  else if keyMatches "error_description" key then
    (decodeString v r.ErrorDescription).map fun s => { r with ErrorDescription := s }
  else if keyMatches "error_uri" key then
    (decodeString v r.ErrorUri).map fun s => { r with ErrorUri := s }
  else if keyMatches "interval " key then
    (decodeInt v r.Interval).map fun n => { r with Interval := n }
  else some r

def unmarshalMembers : List (String × JValue) → AccessTokenResponse → Option AccessTokenResponse
  | [], r => some r
  | (key, v) :: rest, r =>
    match r.setMember key v with
    | none => none
    | some r1 => unmarshalMembers rest r1

/-- The call `json.Unmarshal(body, &accessToken)` of line 172; `none` is `err != nil`. -/
def unmarshalAccessToken (body : Body) : Option AccessTokenResponse :=
  match body with
  | .malformed => none
  | .object members => unmarshalMembers members AccessTokenResponse.zero

def UserDataResponse.setMember (r : UserDataResponse) (key : String) (v : JValue) :
    Option UserDataResponse :=
  if keyMatches "name" key then (decodeString v r.Name).map fun s => { r with Name := s }
  else some r

def unmarshalUserMembers : List (String × JValue) → UserDataResponse → Option UserDataResponse
  | [], r => some r
  | (key, v) :: rest, r =>
    match r.setMember key v with
    | none => none
    | some r1 => unmarshalUserMembers rest r1

/-- The call `json.Unmarshal(body, &userData)` of line 212. -/
def unmarshalUserData (body : Body) : Option UserDataResponse :=
  match body with
  | .malformed => none
  | .object members => unmarshalUserMembers members UserDataResponse.zero

/-! ## The outside world -/

/-- What one call of `PollAccessToken` meets. `requestError` is `http.NewRequest`
failing (line 150), `transportError` is `client.Do` failing (line 157); in
`response code body` the body is `none` when `ioutil.ReadAll` fails. -/
inductive PollReply
  | requestError
  | transportError
  | response (code : Nat) (body : Option Body)
deriving DecidableEq, Repr

/-- What the one call of `HandleAccessToken` meets. The status code is not looked
at by the code, and a failing `ioutil.ReadAll` (line 205) is only logged: the
bytes read so far are unmarshalled all the same, so `response` carries them. -/
inductive ProfileReply
  | requestError
  | transportError
  | response (body : Body)
deriving DecidableEq, Repr

/-- The answers of the outside. `now 0` is the value of `time.Now()` at line 29
and `now (k + 1)` its value at the `k`-th evaluation of the loop condition of
line 39 (counted from 0), in nanoseconds; `poll k` is what the `k`-th call of
`PollAccessToken` meets. -/
structure World where
  now : Nat → Int
  poll : Nat → PollReply
  profile : ProfileReply

/-! ## Observable behaviour -/

/-- Reasons of a `log.Fatalln`. -/
inductive Fatal
  | timedOut
  | tokenExpired (description : String)
  | unsupportedGrantType (description : String)
  | incorrectClientCredentials (description : String)
  | accessDenied
  | noTokenNoError
  | unexpectedStatus (code : Nat)
  | profileRequest
  | profileParse
deriving DecidableEq, Repr

/-- How the process ends: `os.Exit(0)` after the greeting, a `log.Fatalln`, or
the runtime panic of a nil pointer dereference. -/
inductive Exit
  | success (name : String)
  | fatal (reason : Fatal)
  | nilDereference
deriving DecidableEq, Repr

/-- The exit status of the process. -/
def Exit.status : Exit → Nat
  | .success _ => 0
  | .fatal _ => 1
  | .nilDereference => 2

/-- Calls made by the program. `sleep d` is `time.Sleep(d)` with `d` in
nanoseconds; `poll` is `client.Do` on the token request, with the form values
`client_id` and `device_code`; `handleAccessToken` is the call of line 43;
`profileRequest` is `client.Do` on the profile request, with its
`Authorization` header. -/
inductive Event
  | sleep (d : Int)
  | poll (client device : String)
  | handleAccessToken (token : AccessTokenResponse)
  | profileRequest (authorization : String)
deriving DecidableEq, Repr

/-- The durations of the sleeps of a trace, in order. -/
def sleeps : List Event → List Int
  | [] => []
  | .sleep d :: rest => d :: sleeps rest
  | _ :: rest => sleeps rest

/-- The number of poll requests of a trace. -/
def polls : List Event → Nat
  | [] => 0
  | .poll _ _ :: rest => polls rest + 1
  | _ :: rest => polls rest

/-- The tokens handed to `HandleAccessToken` in a trace, in order. -/
def handled : List Event → List AccessTokenResponse
  | [] => []
  | .handleAccessToken t :: rest => t :: handled rest
  | _ :: rest => handled rest

/-- A run that has ended: its trace and its exit. `none` stands for a run that
is still going when the fuel is used up. -/
abbrev Run := Option (List Event × Exit)

def Run.prepend (events : List Event) (r : Run) : Run :=
  r.map fun p => (events ++ p.1, p.2)

/-! ## `PollAccessToken` (lines 142-183) -/

inductive PollResult
  | token (t : AccessTokenResponse)
  | nil
  | fatal (reason : Fatal)
deriving DecidableEq, Repr

def PollAccessToken (client device : String) (reply : PollReply) : List Event × PollResult :=
  match reply with
  | .requestError => ([], .nil)
  | .transportError => ([.poll client device], .nil)
  | .response code body =>
    if code = 200 then
      match body with
      | none => ([.poll client device], .nil)
      | some b =>
        match unmarshalAccessToken b with
        | none => ([.poll client device], .nil)
        | some t => ([.poll client device], .token t)
    else ([.poll client device], .fatal (.unexpectedStatus code))

/-! ## `HandleAccessToken` (lines 191-217) -/

inductive ProfileResult
  | data (u : UserDataResponse)
  | nil
  | fatal (reason : Fatal)
deriving DecidableEq, Repr

def HandleAccessToken (token : AccessTokenResponse) (reply : ProfileReply) :
    List Event × ProfileResult :=
  match reply with
  | .requestError => ([], .fatal .profileRequest)
  | .transportError => ([.profileRequest (token.TokenType ++ " " ++ token.AccessToken)], .nil)
  | .response body =>
    match unmarshalUserData body with
    | none => ([.profileRequest (token.TokenType ++ " " ++ token.AccessToken)], .fatal .profileParse)
    | some u => ([.profileRequest (token.TokenType ++ " " ++ token.AccessToken)], .data u)

/-! ## `main` (lines 24-76) -/

/-- The outcome of one pass through the loop body: back to the loop condition,
or the end of the process. -/
inductive Step
  | next (events : List Event)
  | stop (events : List Event) (exit : Exit)
deriving DecidableEq, Repr

/-- Lines 43-45: the token is handed to `HandleAccessToken`, `userData.Name` is
read and the process exits with status 0. -/
def successBranch (w : World) (token : AccessTokenResponse) : Step :=
  match HandleAccessToken token w.profile with
  | (events, .fatal reason) => .stop (.handleAccessToken token :: events) (.fatal reason)
  | (events, .nil) => .stop (.handleAccessToken token :: events) .nilDereference
  | (events, .data u) => .stop (.handleAccessToken token :: events) (.success u.Name)

/-- Lines 47-70: the switch on `token.Error`. It has no default case. -/
def errorSwitch (dc : DeviceCodeResponse) (token : AccessTokenResponse) : Step :=
  if token.Error = AuthorizationPending then
    .next [.sleep (durationSeconds dc.Interval)]
  else if token.Error = SlowDown then
    .next [.sleep (durationSeconds token.Interval)]
  else if token.Error = ExpiredToken then
    if debug then .stop [] (.fatal (.tokenExpired token.ErrorDescription)) else .next []
  else if token.Error = UnsupportedGrantType then
    if debug then .stop [] (.fatal (.unsupportedGrantType token.ErrorDescription)) else .next []
  else if token.Error = IncorrectClientCredentials then
    if debug then .stop [] (.fatal (.incorrectClientCredentials token.ErrorDescription))
    else .next []
  else if token.Error = AccessDenied then
    .stop [] (.fatal .accessDenied)
  else .next []

/-- Lines 42-73: the loop body after `PollAccessToken` has returned a non-nil
pointer. -/
def dispatch (w : World) (dc : DeviceCodeResponse) (token : AccessTokenResponse) : Step :=
  if token.AccessToken ≠ "" then successBranch w token
  else if token.Error ≠ "" then errorSwitch dc token
  else .stop [] (.fatal .noTokenNoError)

/-- Lines 39-75: the loop from its `k`-th evaluation of the condition on.
A nil result of `PollAccessToken` is dereferenced by `token.AccessToken`. -/
def pollLoop (w : World) (dc : DeviceCodeResponse) (expiration : Int) : Nat → Nat → Run
  | 0, _ => none
  | fuel + 1, k =>
    if w.now (k + 1) < expiration then
      match PollAccessToken clientId dc.DeviceCode (w.poll k) with
      | (events, .fatal reason) => some (events, .fatal reason)
      | (events, .nil) => some (events, .nilDereference)
      | (events, .token t) =>
        match dispatch w dc t with
        | .stop more exit => some (events ++ more, exit)
        | .next more => Run.prepend (events ++ more) (pollLoop w dc expiration fuel (k + 1))
    else some ([], .fatal .timedOut)

/-- The expiration instant of line 29. -/
def expirationOf (w : World) (dc : DeviceCodeResponse) : Int :=
  w.now 0 + durationSeconds dc.ExpiresIn

/-- Function `main` from line 29 on, `dc` being the result of `GetDeviceCode`. -/
def main (w : World) (dc : DeviceCodeResponse) (fuel : Nat) : Run :=
  Run.prepend [.sleep (durationSeconds dc.Interval)] (pollLoop w dc (expirationOf w dc) fuel 0)

/-! ## Sample inputs -/

def sampleDevice : DeviceCodeResponse :=
  { DeviceCode := "D1", UserCode := "ABCD-1234",
    VerificationUri := "https://github.com/login/device", ExpiresIn := 900, Interval := 5 }

/-- A device authorization that expires at once. -/
def instantDevice : DeviceCodeResponse :=
  { DeviceCode := "D1", UserCode := "ABCD-1234",
    VerificationUri := "https://github.com/login/device", ExpiresIn := 0, Interval := 5 }

def pendingBody : Body := .object [("error", .str "authorization_pending")]

def successBody : Body :=
  .object [("access_token", .str "gho_x"), ("token_type", .str "bearer"),
    ("scope", .str "read:user")]

def profileBody : Body := .object [("login", .str "octocat"), ("name", .str "Mona")]

/-- The token decoded from `successBody`. -/
def sampleToken : AccessTokenResponse :=
  { AccessToken := "gho_x", TokenType := "bearer", Scope := "read:user", Error := "",
    ErrorDescription := "", ErrorUri := "", Interval := 0 }

/-- The wire body of a `slow_down` answer, with the key `interval`. -/
def wireSlowDownBody : Body := .object [("error", .str "slow_down"), ("interval", .num 10)]

/-- A `slow_down` body whose key is the declared tag, trailing blank included. -/
def taggedSlowDownBody : Body := .object [("error", .str "slow_down"), ("interval ", .num 10)]

def expiredBody : Body := .object [("error", .str "expired_token")]

def unknownErrorBody : Body := .object [("error", .str "device_flow_disabled")]

/-- The token decoded from `pendingBody`. -/
def pendingToken : AccessTokenResponse :=
  { AccessToken := "", TokenType := "", Scope := "", Error := "authorization_pending",
    ErrorDescription := "", ErrorUri := "", Interval := 0 }

/-- The token decoded from `taggedSlowDownBody`. -/
def slowDownToken : AccessTokenResponse :=
  { AccessToken := "", TokenType := "", Scope := "", Error := "slow_down",
    ErrorDescription := "", ErrorUri := "", Interval := 10 }

/-- The token decoded from `expiredBody`. -/
def expiredToken : AccessTokenResponse :=
  { AccessToken := "", TokenType := "", Scope := "", Error := "expired_token",
    ErrorDescription := "", ErrorUri := "", Interval := 0 }

/-- A clock that is read six seconds later each time. -/
def steadyClock (k : Nat) : Int := (k : Int) * 6000000000

/-- One pending answer, then the token; the profile is served. -/
def pendingOnceWorld : World :=
  { now := steadyClock
    poll := fun k => if k = 0 then .response 200 (some pendingBody)
      else .response 200 (some successBody)
    profile := .response profileBody }

/-- The token at once; the profile endpoint answers with something that is not JSON. -/
def htmlProfileWorld : World :=
  { now := steadyClock
    poll := fun _ => .response 200 (some successBody)
    profile := .response .malformed }

/-- The token at once; the profile request fails in the transport. -/
def profileOfflineWorld : World :=
  { now := steadyClock
    poll := fun _ => .response 200 (some successBody)
    profile := .transportError }

/-- A decoded `slow_down` with interval 10, then a pending answer, then the token. -/
def slowDownWorld : World :=
  { now := steadyClock
    poll := fun k => if k = 0 then .response 200 (some taggedSlowDownBody)
      else if k = 1 then .response 200 (some pendingBody)
      else .response 200 (some successBody)
    profile := .response profileBody }

/-- The scenario of the wire format: `slow_down` with `interval` 10, then `expired_token`. -/
def wireSlowDownWorld : World :=
  { now := steadyClock
    poll := fun k => if k = 0 then .response 200 (some wireSlowDownBody)
      else .response 200 (some expiredBody)
    profile := .response profileBody }

/-- An error code outside the six of lines 130-137 on every poll; the third
evaluation of the loop condition is past the expiration. -/
def unknownErrorWorld : World :=
  { now := fun k => if k = 0 then 0 else if k = 1 then 5000000000
      else if k = 2 then 6000000000 else 900000000000
    poll := fun _ => .response 200 (some unknownErrorBody)
    profile := .response profileBody }

/-- Status 200 with the empty object as body. -/
def emptyBodyWorld : World :=
  { now := steadyClock
    poll := fun _ => .response 200 (some (.object []))
    profile := .response profileBody }

/-- Every poll fails in the transport. -/
def offlineWorld : World :=
  { now := steadyClock
    poll := fun _ => .transportError
    profile := .response profileBody }

/-- A device authorization whose interval is one second beyond what `int64`
nanoseconds hold. -/
def hugeDevice : DeviceCodeResponse :=
  { DeviceCode := "D1", UserCode := "ABCD-1234",
    VerificationUri := "https://github.com/login/device", ExpiresIn := 900,
    Interval := 9223372037 }

/-- A device authorization that expires after ten seconds. -/
def shortDevice : DeviceCodeResponse :=
  { DeviceCode := "D1", UserCode := "ABCD-1234",
    VerificationUri := "https://github.com/login/device", ExpiresIn := 10, Interval := 5 }

/-- A `slow_down` body under the declared tag with an interval one second beyond
what `int64` nanoseconds hold. -/
def hugeSlowDownBody : Body :=
  .object [("error", .str "slow_down"), ("interval ", .num 9223372037)]

/-- The token decoded from `hugeSlowDownBody`. -/
def hugeSlowDownToken : AccessTokenResponse :=
  { AccessToken := "", TokenType := "", Scope := "", Error := "slow_down",
    ErrorDescription := "", ErrorUri := "", Interval := 9223372037 }

/-- One pending answer, then the token; the profile endpoint answers with
something that is not JSON. -/
def pendingThenHtmlWorld : World :=
  { now := steadyClock
    poll := fun k => if k = 0 then .response 200 (some pendingBody)
      else .response 200 (some successBody)
    profile := .response .malformed }

/-- A decoded `slow_down` with interval 9223372037, then the token. -/
def hugeSlowDownWorld : World :=
  { now := steadyClock
    poll := fun k => if k = 0 then .response 200 (some hugeSlowDownBody)
      else .response 200 (some successBody)
    profile := .response profileBody }

/-- Every poll is answered pending; the clock is read five seconds later each
time. -/
def alwaysPendingWorld : World :=
  { now := fun k => (k : Int) * 5000000000
    poll := fun _ => .response 200 (some pendingBody)
    profile := .response profileBody }

/-- The events of a loop pass. -/
def Step.events : Step → List Event
  | .next events => events
  | .stop events _ => events

/-- The trace of `n` passes that each poll and then sleep `d`. -/
def rounds (client device : String) (d : Int) : Nat → List Event
  | 0 => []
  | n + 1 => .poll client device :: .sleep d :: rounds client device d n

/-! ## Traces -/

theorem sleeps_append (a b : List Event) : sleeps (a ++ b) = sleeps a ++ sleeps b := by
  induction a with
  | nil => rfl
  | cons e a ih => cases e <;> simp [sleeps, ih]

theorem polls_append (a b : List Event) : polls (a ++ b) = polls a + polls b := by
  induction a with
  | nil => simp [polls]
  | cons e a ih =>
    cases e
    all_goals simp [polls, ih]
    all_goals omega

theorem handled_append (a b : List Event) : handled (a ++ b) = handled a ++ handled b := by
  induction a with
  | nil => rfl
  | cons e a ih => cases e <;> simp [handled, ih]

theorem sleeps_rounds (c dv : String) (d : Int) (n : Nat) :
    sleeps (rounds c dv d n) = List.replicate n d := by
  induction n with
  | zero => rfl
  | succ n ih => simp [rounds, sleeps, ih, List.replicate_succ]

theorem polls_rounds (c dv : String) (d : Int) (n : Nat) : polls (rounds c dv d n) = n := by
  induction n with
  | zero => rfl
  | succ n ih => simp [rounds, polls, ih]

theorem handled_rounds (c dv : String) (d : Int) (n : Nat) : handled (rounds c dv d n) = [] := by
  induction n with
  | zero => rfl
  | succ n ih => simp [rounds, handled, ih]

/-! ## The three functions, one call at a time -/

theorem PollAccessToken_token {c dv : String} {reply : PollReply} {t : AccessTokenResponse}
    (h : (PollAccessToken c dv reply).2 = .token t) :
    PollAccessToken c dv reply = ([.poll c dv], .token t) := by
  unfold PollAccessToken at h ⊢
  cases reply with
  | requestError => simp at h
  | transportError => simp at h
  | response code body =>
    by_cases hc : code = 200
    · cases body with
      | none => simp [hc] at h
      | some b =>
        cases hb : unmarshalAccessToken b with
        | none => simp [hc, hb] at h
        | some t1 =>
          simp [hc, hb] at h
          simp [hc, hb, h]
    · simp [hc] at h

theorem PollAccessToken_polls_le (c dv : String) (reply : PollReply) :
    polls (PollAccessToken c dv reply).1 ≤ 1 := by
  unfold PollAccessToken
  cases reply with
  | requestError => simp [polls]
  | transportError => simp [polls]
  | response code body =>
    by_cases hc : code = 200
    · cases body with
      | none => simp [hc, polls]
      | some b => cases hb : unmarshalAccessToken b <;> simp [hc, hb, polls]
    · simp [hc, polls]

theorem HandleAccessToken_events (t : AccessTokenResponse) (reply : ProfileReply) :
    sleeps (HandleAccessToken t reply).1 = [] ∧ polls (HandleAccessToken t reply).1 = 0 ∧
      handled (HandleAccessToken t reply).1 = [] := by
  unfold HandleAccessToken
  cases reply with
  | requestError => simp [sleeps, polls, handled]
  | transportError => simp [sleeps, polls, handled]
  | response body => cases hb : unmarshalUserData body <;> simp [hb, sleeps, polls, handled]

theorem successBranch_eq (w : World) (t : AccessTokenResponse) :
    ∃ exit, successBranch w t
        = .stop (.handleAccessToken t :: (HandleAccessToken t w.profile).1) exit ∧
      (∀ u, (HandleAccessToken t w.profile).2 = .data u → exit = .success u.Name) ∧
      (∀ r, (HandleAccessToken t w.profile).2 = .fatal r → exit = .fatal r) := by
  unfold successBranch
  rcases HandleAccessToken t w.profile with ⟨events, u | _ | r⟩ <;> simp

theorem polls_errorSwitch (dc : DeviceCodeResponse) (t : AccessTokenResponse) :
    polls (errorSwitch dc t).events = 0 := by
  unfold errorSwitch
  simp only [debug]
  repeat' split
  all_goals simp [Step.events, polls]

theorem polls_dispatch (w : World) (dc : DeviceCodeResponse) (t : AccessTokenResponse) :
    polls (dispatch w dc t).events = 0 := by
  unfold dispatch
  split
  · obtain ⟨exit, h, _⟩ := successBranch_eq w t
    rw [h]
    simp [Step.events, polls, (HandleAccessToken_events t w.profile).2.1]
  · split
    · exact polls_errorSwitch dc t
    · simp [Step.events, polls]

/-- One pass of the loop whose poll returned a non-nil pointer. -/
theorem pollLoop_token (w : World) (dc : DeviceCodeResponse) (expiration : Int) (fuel k : Nat)
    (t : AccessTokenResponse) (hcheck : w.now (k + 1) < expiration)
    (hpoll : (PollAccessToken clientId dc.DeviceCode (w.poll k)).2 = .token t) :
    pollLoop w dc expiration (fuel + 1) k =
      match dispatch w dc t with
      | .stop more exit => some (.poll clientId dc.DeviceCode :: more, exit)
      | .next more =>
        Run.prepend (.poll clientId dc.DeviceCode :: more) (pollLoop w dc expiration fuel (k + 1)) := by
  rw [pollLoop]
  simp [hcheck, PollAccessToken_token hpoll]

/-- A pass that meets a pending answer polls, sleeps the interval of the device
authorization and goes back to the loop condition. -/
theorem pollLoop_pending (w : World) (dc : DeviceCodeResponse) (expiration : Int) (fuel k : Nat)
    (t : AccessTokenResponse) (hcheck : w.now (k + 1) < expiration)
    (hpoll : (PollAccessToken clientId dc.DeviceCode (w.poll k)).2 = .token t)
    (hempty : t.AccessToken = "") (herr : t.Error = AuthorizationPending) :
    pollLoop w dc expiration (fuel + 1) k =
      Run.prepend [.poll clientId dc.DeviceCode, .sleep (durationSeconds dc.Interval)]
        (pollLoop w dc expiration fuel (k + 1)) := by
  rw [pollLoop_token w dc expiration fuel k t hcheck hpoll]
  simp [dispatch, errorSwitch, hempty, herr, AuthorizationPending]

/-- A pass that meets a token ends the run in the success branch. -/
theorem pollLoop_success (w : World) (dc : DeviceCodeResponse) (expiration : Int) (fuel k : Nat)
    (t : AccessTokenResponse) (hcheck : w.now (k + 1) < expiration)
    (hpoll : (PollAccessToken clientId dc.DeviceCode (w.poll k)).2 = .token t)
    (htok : t.AccessToken ≠ "") :
    ∃ exit, pollLoop w dc expiration (fuel + 1) k
        = some (.poll clientId dc.DeviceCode :: .handleAccessToken t ::
            (HandleAccessToken t w.profile).1, exit) ∧
      (∀ u, (HandleAccessToken t w.profile).2 = .data u → exit = .success u.Name) ∧
      (∀ r, (HandleAccessToken t w.profile).2 = .fatal r → exit = .fatal r) := by
  obtain ⟨exit, h, hdata, hfatal⟩ := successBranch_eq w t
  refine ⟨exit, ?_, hdata, hfatal⟩
  rw [pollLoop_token w dc expiration fuel k t hcheck hpoll]
  simp [dispatch, htok, h]

/-- A pass that meets `slow_down` polls, sleeps the interval of that answer and
goes back to the loop condition. -/
theorem pollLoop_slow_down (w : World) (dc : DeviceCodeResponse) (expiration : Int) (fuel k : Nat)
    (t : AccessTokenResponse) (hcheck : w.now (k + 1) < expiration)
    (hpoll : (PollAccessToken clientId dc.DeviceCode (w.poll k)).2 = .token t)
    (hempty : t.AccessToken = "") (herr : t.Error = SlowDown) :
    pollLoop w dc expiration (fuel + 1) k =
      Run.prepend [.poll clientId dc.DeviceCode, .sleep (durationSeconds t.Interval)]
        (pollLoop w dc expiration fuel (k + 1)) := by
  rw [pollLoop_token w dc expiration fuel k t hcheck hpoll]
  simp [dispatch, errorSwitch, hempty, herr, SlowDown, AuthorizationPending]

/-- Within the range of `int64` nanoseconds, `time.Duration(s) * time.Second` is
`s` seconds. -/
theorem durationSeconds_exact (s : Int) (hlo : 0 ≤ s) (hhi : s ≤ 9223372036) :
    durationSeconds s = s * 1000000000 := by
  unfold durationSeconds wrapInt64
  have h1 : (0 : Int) ≤ s * 1000000000 + 2 ^ 63 := by positivity
  have h2 : s * 1000000000 + 2 ^ 63 < 2 ^ 64 := by norm_num; omega
  rw [Int.emod_eq_of_lt h1 h2]
  ring

/-- The loop over `N` pending answers followed by a token, started at pass `k`. -/
theorem pollLoop_rounds (w : World) (dc : DeviceCodeResponse) (expiration : Int)
    (tok : AccessTokenResponse) (htok : tok.AccessToken ≠ "") :
    ∀ (N fuel k : Nat),
      (∀ j, j < N → ∃ t, (PollAccessToken clientId dc.DeviceCode (w.poll (k + j))).2 = .token t ∧
        t.AccessToken = "" ∧ t.Error = AuthorizationPending) →
      (PollAccessToken clientId dc.DeviceCode (w.poll (k + N))).2 = .token tok →
      (∀ j, j ≤ N → w.now (k + j + 1) < expiration) →
      N + 1 ≤ fuel →
      ∃ exit, pollLoop w dc expiration fuel k
          = some (rounds clientId dc.DeviceCode (durationSeconds dc.Interval) N ++
              .poll clientId dc.DeviceCode :: .handleAccessToken tok ::
                (HandleAccessToken tok w.profile).1, exit) ∧
        (∀ u, (HandleAccessToken tok w.profile).2 = .data u → exit = .success u.Name) ∧
        (∀ r, (HandleAccessToken tok w.profile).2 = .fatal r → exit = .fatal r) := by
  intro N
  induction N with
  | zero =>
    intro fuel k _ hsucc hclock hfuel
    obtain ⟨f, rfl⟩ : ∃ f, fuel = f + 1 := ⟨fuel - 1, by omega⟩
    have hc : w.now (k + 1) < expiration := by simpa using hclock 0 (le_refl 0)
    simpa [rounds] using pollLoop_success w dc expiration f k tok hc (by simpa using hsucc) htok
  | succ N ih =>
    intro fuel k hpend hsucc hclock hfuel
    obtain ⟨f, rfl⟩ : ∃ f, fuel = f + 1 := ⟨fuel - 1, by omega⟩
    have hc : w.now (k + 1) < expiration := by simpa using hclock 0 (Nat.zero_le _)
    obtain ⟨t, ht, hempty, herr⟩ := hpend 0 (Nat.succ_pos N)
    have hstep := pollLoop_pending w dc expiration f k t hc (by simpa using ht) hempty herr
    have hrest := ih f (k + 1)
      (fun j hj => by
        have := hpend (j + 1) (by omega)
        rwa [show k + (j + 1) = k + 1 + j by omega] at this)
      (by rwa [show k + (N + 1) = k + 1 + N by omega] at hsucc)
      (fun j hj => by
        have := hclock (j + 1) (by omega)
        rwa [show k + (j + 1) + 1 = k + 1 + j + 1 by omega] at this)
      (by omega)
    obtain ⟨exit, hrun, hdata, hfatal⟩ := hrest
    refine ⟨exit, ?_, hdata, hfatal⟩
    rw [hstep, hrun]
    simp [Run.prepend, rounds]

/-- Every poll of a finished run of the loop started at pass `k` follows an
evaluation of the loop condition that read a time before the expiration. -/
theorem pollLoop_polls_checked (w : World) (dc : DeviceCodeResponse) (expiration : Int) :
    ∀ (fuel k : Nat) (trace : List Event) (exit : Exit),
      pollLoop w dc expiration fuel k = some (trace, exit) →
      ∀ j, j < polls trace → w.now (k + j + 1) < expiration := by
  intro fuel
  induction fuel with
  | zero => intro k trace exit h; simp [pollLoop] at h
  | succ fuel ih =>
    intro k trace exit h j hj
    rw [pollLoop] at h
    by_cases hc : w.now (k + 1) < expiration
    · have hle := PollAccessToken_polls_le clientId dc.DeviceCode (w.poll k)
      rw [if_pos hc] at h
      rcases hp : PollAccessToken clientId dc.DeviceCode (w.poll k) with ⟨events, t | _ | r⟩
      · rw [hp] at h hle
        dsimp only at h hle
        have hd := polls_dispatch w dc t
        cases hs : dispatch w dc t with
        | stop more ex =>
          rw [hs] at h hd
          simp only [Option.some.injEq, Prod.mk.injEq] at h
          obtain ⟨rfl, -⟩ := h
          simp only [Step.events] at hd
          rw [polls_append, hd] at hj
          have : j = 0 := by omega
          subst this
          simpa using hc
        | next more =>
          rw [hs] at h hd
          simp only [Step.events] at hd
          cases hr : pollLoop w dc expiration fuel (k + 1) with
          | none => simp [hr, Run.prepend] at h
          | some p =>
            obtain ⟨rest, ex⟩ := p
            simp only [hr, Run.prepend, Option.map_some', Option.some.injEq, Prod.mk.injEq] at h
            obtain ⟨rfl, -⟩ := h
            rw [polls_append, polls_append, hd] at hj
            rcases Nat.eq_zero_or_pos j with h0 | hpos
            · subst h0; simpa using hc
            · have := ih (k + 1) rest ex hr (j - 1) (by omega)
              rwa [show k + 1 + (j - 1) + 1 = k + j + 1 by omega] at this
      · rw [hp] at h hle
        dsimp only at h hle
        simp only [Option.some.injEq, Prod.mk.injEq] at h
        obtain ⟨rfl, -⟩ := h
        have : j = 0 := by omega
        subst this
        simpa using hc
      · rw [hp] at h hle
        dsimp only at h hle
        simp only [Option.some.injEq, Prod.mk.injEq] at h
        obtain ⟨rfl, -⟩ := h
        have : j = 0 := by omega
        subst this
        simpa using hc
    · rw [if_neg hc] at h
      simp only [Option.some.injEq, Prod.mk.injEq] at h
      obtain ⟨rfl, -⟩ := h
      simp [polls] at hj

/-- The loop started at pass `k` ends within `m + 1` passes when the loop
condition of pass `k + m` reads a time at or past the expiration. -/
theorem pollLoop_terminates (w : World) (dc : DeviceCodeResponse) (expiration : Int) :
    ∀ (m k : Nat), expiration ≤ w.now (k + m + 1) →
      ∃ r, pollLoop w dc expiration (m + 1) k = some r := by
  intro m
  induction m with
  | zero =>
    intro k h
    have hc : ¬ w.now (k + 1) < expiration := not_lt.mpr (by simpa using h)
    exact ⟨_, by rw [pollLoop, if_neg hc]⟩
  | succ m ih =>
    intro k h
    rw [pollLoop]
    by_cases hc : w.now (k + 1) < expiration
    · rw [if_pos hc]
      rcases PollAccessToken clientId dc.DeviceCode (w.poll k) with ⟨events, t | _ | r⟩
      · dsimp only
        cases dispatch w dc t with
        | stop more ex => exact ⟨_, rfl⟩
        | next more =>
          obtain ⟨r, hr⟩ := ih (k + 1) (by rwa [show k + 1 + m + 1 = k + (m + 1) + 1 by omega])
          exact ⟨(events ++ more ++ r.1, r.2), by simp only [hr, Run.prepend, Option.map_some']⟩
      · exact ⟨_, rfl⟩
      · exact ⟨_, rfl⟩
    · rw [if_neg hc]
      exact ⟨_, rfl⟩

/-! ## The claims -/

/-- C1, as stated, fails in two ways. After one pending answer and the token
`gho_x`, with the clock before the expiration at both evaluations of the loop
condition, a profile body that is not JSON ends the run in the `log.Fatalln` of
line 214 (status 1), not in success. And with the interval 9223372037 the
product `time.Duration(Interval) * time.Second` wraps: both sleeps are called
with -9223372036709551616 nanoseconds, not with 9223372037 seconds. -/
theorem pending_polls_then_token_counterexample :
    ((PollAccessToken clientId sampleDevice.DeviceCode (pendingThenHtmlWorld.poll 0)).2
        = .token pendingToken ∧
      (PollAccessToken clientId sampleDevice.DeviceCode (pendingThenHtmlWorld.poll 1)).2
        = .token sampleToken ∧
      pendingThenHtmlWorld.now 1 < expirationOf pendingThenHtmlWorld sampleDevice ∧
      pendingThenHtmlWorld.now 2 < expirationOf pendingThenHtmlWorld sampleDevice ∧
      main pendingThenHtmlWorld sampleDevice 2
        = some ([.sleep 5000000000, .poll clientId "D1", .sleep 5000000000,
            .poll clientId "D1", .handleAccessToken sampleToken,
            .profileRequest "bearer gho_x"], .fatal .profileParse) ∧
      (Exit.fatal Fatal.profileParse).status = 1) ∧
    ((PollAccessToken clientId hugeDevice.DeviceCode (pendingOnceWorld.poll 0)).2
        = .token pendingToken ∧
      (PollAccessToken clientId hugeDevice.DeviceCode (pendingOnceWorld.poll 1)).2
        = .token sampleToken ∧
      pendingOnceWorld.now 1 < expirationOf pendingOnceWorld hugeDevice ∧
      pendingOnceWorld.now 2 < expirationOf pendingOnceWorld hugeDevice ∧
      main pendingOnceWorld hugeDevice 2
        = some ([.sleep (-9223372036709551616), .poll clientId "D1",
            .sleep (-9223372036709551616), .poll clientId "D1",
            .handleAccessToken sampleToken, .profileRequest "bearer gho_x"],
            .success "Mona") ∧
      (-9223372036709551616 : Int) ≠ hugeDevice.Interval * 1000000000) := by
  decide

/-- C1, amended: when the first `N` polls are answered `authorization_pending`
with an empty access token, poll `N + 1` brings a non-empty access token and
every evaluation of the loop condition reads a time before the expiration
instant, `main` ends (any fuel of at least `N + 1` passes is enough) with the
trace sleep, poll, ..., sleep, poll: exactly `N + 1` sleeps, each the call
`time.Sleep(time.Duration(Interval) * time.Second)` on the interval of the device
authorization (the first before any poll), which is exactly `Interval` seconds
when `0 ≤ Interval ≤ 9223372036`; exactly `N + 1` poll requests; and then the
success branch with that token, which is handed to `HandleAccessToken` once. The
process exits with status 0 when `HandleAccessToken` returns a profile and with
status 1 when `HandleAccessToken` ends in `log.Fatalln`. -/
theorem pending_polls_then_token (w : World) (dc : DeviceCodeResponse) (N fuel : Nat)
    (tok : AccessTokenResponse)
    (hpend : ∀ k, k < N → ∃ t, (PollAccessToken clientId dc.DeviceCode (w.poll k)).2 = .token t ∧
      t.AccessToken = "" ∧ t.Error = AuthorizationPending)
    (hsucc : (PollAccessToken clientId dc.DeviceCode (w.poll N)).2 = .token tok)
    (htok : tok.AccessToken ≠ "")
    (hclock : ∀ k, k ≤ N → w.now (k + 1) < expirationOf w dc)
    (hfuel : N + 1 ≤ fuel) :
    ∃ trace exit, main w dc fuel = some (trace, exit) ∧
      trace = .sleep (durationSeconds dc.Interval) ::
        (rounds clientId dc.DeviceCode (durationSeconds dc.Interval) N ++
          .poll clientId dc.DeviceCode :: .handleAccessToken tok ::
            (HandleAccessToken tok w.profile).1) ∧
      sleeps trace = List.replicate (N + 1) (durationSeconds dc.Interval) ∧
      (0 ≤ dc.Interval → dc.Interval ≤ 9223372036 →
        sleeps trace = List.replicate (N + 1) (dc.Interval * 1000000000)) ∧
      polls trace = N + 1 ∧
      handled trace = [tok] ∧
      (∀ u, (HandleAccessToken tok w.profile).2 = .data u →
        exit = .success u.Name ∧ exit.status = 0) ∧
      (∀ r, (HandleAccessToken tok w.profile).2 = .fatal r →
        exit = .fatal r ∧ exit.status = 1) := by
  obtain ⟨exit, hrun, hdata, hfatal⟩ := pollLoop_rounds w dc (expirationOf w dc) tok htok N fuel 0
    (fun j hj => by simpa using hpend j hj) (by simpa using hsucc)
    (fun j hj => by simpa using hclock j hj) hfuel
  obtain ⟨hs, hp, hh⟩ := HandleAccessToken_events tok w.profile
  have hsleeps : sleeps (Event.sleep (durationSeconds dc.Interval) ::
      (rounds clientId dc.DeviceCode (durationSeconds dc.Interval) N ++
        Event.poll clientId dc.DeviceCode :: Event.handleAccessToken tok ::
          (HandleAccessToken tok w.profile).1))
      = List.replicate (N + 1) (durationSeconds dc.Interval) := by
    simp [sleeps, sleeps_append, sleeps_rounds, hs, List.replicate_succ]
  refine ⟨_, exit, ?_, rfl, hsleeps, ?_, ?_, ?_, ?_, ?_⟩
  · simp [main, hrun, Run.prepend]
  · intro hlo hhi
    rw [hsleeps, durationSeconds_exact dc.Interval hlo hhi]
  · simp [polls, polls_append, polls_rounds, hp]
  · simp [handled, handled_append, handled_rounds, hh]
  · intro u hu
    have := hdata u hu
    subst this
    exact ⟨rfl, rfl⟩
  · intro r hr
    have := hfatal r hr
    subst this
    exact ⟨rfl, rfl⟩

/-- C1, amended, at one pending answer followed by the token `gho_x`, interval 5:
two sleeps of five seconds, two polls, the token handed over, status 0. -/
theorem pending_polls_then_token_witness :
    ∃ trace exit, main pendingOnceWorld sampleDevice 2 = some (trace, exit) ∧
      sleeps trace = [5000000000, 5000000000] ∧ polls trace = 2 ∧
      handled trace = [sampleToken] ∧ exit = .success "Mona" ∧ exit.status = 0 := by
  obtain ⟨trace, exit, hrun, -, -, hs, hp, hh, hexit, -⟩ :=
    pending_polls_then_token pendingOnceWorld sampleDevice 1 2 sampleToken
      (fun k hk => by
        obtain rfl : k = 0 := by omega
        exact ⟨pendingToken, by decide, by decide, by decide⟩)
      (by decide) (by decide)
      (fun k hk => by interval_cases k <;> decide)
      (by decide)
  refine ⟨trace, exit, hrun, ?_, hp, hh, hexit ⟨"Mona"⟩ (by decide)⟩
  rw [hs (by decide) (by decide)]
  decide

/-- C2, as stated, fails: a poll brings the non-empty access token `gho_x`, the
profile endpoint answers with a body that is not JSON, and the run ends in the
`log.Fatalln` of line 214 with status 1, not with status 0. -/
theorem token_exit_status_counterexample :
    (PollAccessToken clientId sampleDevice.DeviceCode (htmlProfileWorld.poll 0)).2
        = .token sampleToken ∧
      sampleToken.AccessToken ≠ "" ∧
      main htmlProfileWorld sampleDevice 1
        = some ([.sleep 5000000000, .poll clientId "D1", .handleAccessToken sampleToken,
            .profileRequest "bearer gho_x"], .fatal .profileParse) ∧
      (Exit.fatal Fatal.profileParse).status ≠ 0 := by
  decide

/-- C2, amended: a pass of the loop whose poll returns a non-empty access token
(whatever its error field holds) takes the success branch: the rest of the run
is that poll, one call of `HandleAccessToken` with that token and what this call
does, with no further poll request and no sleep; the process exits with status 0
when `HandleAccessToken` returns a profile, and with status 1 when
`HandleAccessToken` ends in `log.Fatalln`. -/
theorem token_takes_success_branch (w : World) (dc : DeviceCodeResponse) (expiration : Int)
    (fuel k : Nat) (t : AccessTokenResponse)
    (hcheck : w.now (k + 1) < expiration)
    (hpoll : (PollAccessToken clientId dc.DeviceCode (w.poll k)).2 = .token t)
    (htok : t.AccessToken ≠ "") :
    ∃ trace exit, pollLoop w dc expiration (fuel + 1) k = some (trace, exit) ∧
      trace = .poll clientId dc.DeviceCode :: .handleAccessToken t ::
        (HandleAccessToken t w.profile).1 ∧
      handled trace = [t] ∧ polls trace = 1 ∧ sleeps trace = [] ∧
      (∀ u, (HandleAccessToken t w.profile).2 = .data u →
        exit = .success u.Name ∧ exit.status = 0) ∧
      (∀ r, (HandleAccessToken t w.profile).2 = .fatal r →
        exit = .fatal r ∧ exit.status = 1) := by
  obtain ⟨exit, hrun, hdata, hfatal⟩ := pollLoop_success w dc expiration fuel k t hcheck hpoll htok
  obtain ⟨hs, hp, hh⟩ := HandleAccessToken_events t w.profile
  refine ⟨_, exit, hrun, rfl, ?_, ?_, ?_, ?_, ?_⟩
  · simp [handled, hh]
  · simp [polls, hp]
  · simp [sleeps, hs]
  · intro u hu
    have := hdata u hu
    subst this
    exact ⟨rfl, rfl⟩
  · intro r hr
    have := hfatal r hr
    subst this
    exact ⟨rfl, rfl⟩

/-- C2, amended, at the second pass of a run whose second poll brings `gho_x`. -/
theorem token_takes_success_branch_witness :
    pollLoop pendingOnceWorld sampleDevice 900000000000 1 1
      = some ([.poll clientId "D1", .handleAccessToken sampleToken,
          .profileRequest "bearer gho_x"], .success "Mona") := by
  obtain ⟨trace, exit, hrun, htrace, -, -, -, hexit, -⟩ :=
    token_takes_success_branch pendingOnceWorld sampleDevice 900000000000 0 1 sampleToken
      (by decide) (by decide) (by decide)
  rw [hrun, htrace, (hexit ⟨"Mona"⟩ (by decide)).1]
  decide

/-- C3, as stated, fails in two ways. With interval 5, the first poll is
answered `slow_down` with decoded interval 10 and the second
`authorization_pending`: the sleep after the pending answer lasts 5 seconds
again, not 10. And a `slow_down` answer with decoded interval 9223372037 is
followed by a sleep called with -9223372036709551616 nanoseconds, the wrapped
product, not with 9223372037 seconds. -/
theorem slow_down_interval_counterexample :
    ((PollAccessToken clientId sampleDevice.DeviceCode (slowDownWorld.poll 0)).2
        = .token slowDownToken ∧
      slowDownToken.Error = SlowDown ∧ slowDownToken.Interval = 10 ∧
      (PollAccessToken clientId sampleDevice.DeviceCode (slowDownWorld.poll 1)).2
        = .token pendingToken ∧
      pendingToken.Error = AuthorizationPending ∧
      main slowDownWorld sampleDevice 3
        = some ([.sleep 5000000000, .poll clientId "D1", .sleep 10000000000,
            .poll clientId "D1", .sleep 5000000000, .poll clientId "D1",
            .handleAccessToken sampleToken, .profileRequest "bearer gho_x"],
            .success "Mona") ∧
      (5000000000 : Int) ≠ slowDownToken.Interval * 1000000000) ∧
    ((PollAccessToken clientId sampleDevice.DeviceCode (hugeSlowDownWorld.poll 0)).2
        = .token hugeSlowDownToken ∧
      hugeSlowDownToken.Error = SlowDown ∧ hugeSlowDownToken.Interval = 9223372037 ∧
      main hugeSlowDownWorld sampleDevice 2
        = some ([.sleep 5000000000, .poll clientId "D1", .sleep (-9223372036709551616),
            .poll clientId "D1", .handleAccessToken sampleToken,
            .profileRequest "bearer gho_x"], .success "Mona") ∧
      (-9223372036709551616 : Int) ≠ hugeSlowDownToken.Interval * 1000000000) := by
  decide

/-- C3, amended: in every pass of the loop, whatever was answered before, a
`slow_down` answer with decoded interval `I'` is followed by the one sleep
`time.Sleep(time.Duration(I') * time.Second)`, which lasts exactly `I'` seconds
when `0 ≤ I' ≤ 9223372036`, and then by the next pass; an
`authorization_pending` answer is followed by the one sleep
`time.Sleep(time.Duration(Interval) * time.Second)` on the interval of the device
authorization, which lasts exactly `Interval` seconds when
`0 ≤ Interval ≤ 9223372036`, and then by the next pass: the interval of a
`slow_down` answer is used for the sleep right after it only. -/
theorem slow_down_interval_used_once (w : World) (dc : DeviceCodeResponse) (expiration : Int)
    (fuel k : Nat) (t : AccessTokenResponse)
    (hcheck : w.now (k + 1) < expiration)
    (hpoll : (PollAccessToken clientId dc.DeviceCode (w.poll k)).2 = .token t)
    (hempty : t.AccessToken = "") :
    (t.Error = SlowDown →
      pollLoop w dc expiration (fuel + 1) k =
        Run.prepend [.poll clientId dc.DeviceCode, .sleep (durationSeconds t.Interval)]
          (pollLoop w dc expiration fuel (k + 1))) ∧
    (t.Error = SlowDown → 0 ≤ t.Interval → t.Interval ≤ 9223372036 →
      pollLoop w dc expiration (fuel + 1) k =
        Run.prepend [.poll clientId dc.DeviceCode, .sleep (t.Interval * 1000000000)]
          (pollLoop w dc expiration fuel (k + 1))) ∧
    (t.Error = AuthorizationPending →
      pollLoop w dc expiration (fuel + 1) k =
        Run.prepend [.poll clientId dc.DeviceCode, .sleep (durationSeconds dc.Interval)]
          (pollLoop w dc expiration fuel (k + 1))) ∧
    (t.Error = AuthorizationPending → 0 ≤ dc.Interval → dc.Interval ≤ 9223372036 →
      pollLoop w dc expiration (fuel + 1) k =
        Run.prepend [.poll clientId dc.DeviceCode, .sleep (dc.Interval * 1000000000)]
          (pollLoop w dc expiration fuel (k + 1))) := by
  refine ⟨pollLoop_slow_down w dc expiration fuel k t hcheck hpoll hempty, ?_,
    pollLoop_pending w dc expiration fuel k t hcheck hpoll hempty, ?_⟩
  · intro herr hlo hhi
    rw [pollLoop_slow_down w dc expiration fuel k t hcheck hpoll hempty herr,
      durationSeconds_exact t.Interval hlo hhi]
  · intro herr hlo hhi
    rw [pollLoop_pending w dc expiration fuel k t hcheck hpoll hempty herr,
      durationSeconds_exact dc.Interval hlo hhi]

/-- C3, amended, on `slowDownWorld` with interval 5: the pass that meets the
`slow_down` answer with decoded interval 10 sleeps 10 seconds, and the next
pass, which meets a pending answer, sleeps 5 seconds. -/
theorem slow_down_interval_used_once_witness :
    pollLoop slowDownWorld sampleDevice 900000000000 3 0 =
        Run.prepend [.poll clientId "D1", .sleep (10 * 1000000000)]
          (pollLoop slowDownWorld sampleDevice 900000000000 2 1) ∧
      pollLoop slowDownWorld sampleDevice 900000000000 2 1 =
        Run.prepend [.poll clientId "D1", .sleep (5 * 1000000000)]
          (pollLoop slowDownWorld sampleDevice 900000000000 1 2) :=
  ⟨(slow_down_interval_used_once slowDownWorld sampleDevice 900000000000 2 0 slowDownToken
      (by decide) (by decide) (by decide)).2.1 (by decide) (by decide) (by decide),
    (slow_down_interval_used_once slowDownWorld sampleDevice 900000000000 1 1 pendingToken
      (by decide) (by decide) (by decide)).2.2.2 (by decide) (by decide) (by decide)⟩

/-- C4: the wire body with `error` `slow_down` and `interval` 10 is decoded with
`Interval` 0, because the declared tag of that field is `"interval "` and the key
`interval` does not select it; the sleep of the `slow_down` branch that follows
lasts 0 seconds, not 10. The second poll is answered `expired_token` and ends
the run. -/
theorem wire_slow_down_sleeps_zero :
    keyMatches "interval " "interval" = false ∧
      unmarshalAccessToken wireSlowDownBody
        = some { AccessToken := "", TokenType := "", Scope := "", Error := "slow_down",
                 ErrorDescription := "", ErrorUri := "", Interval := 0 } ∧
      main wireSlowDownWorld sampleDevice 2
        = some ([.sleep 5000000000, .poll clientId "D1", .sleep 0, .poll clientId "D1"],
            .fatal (.tokenExpired "")) := by
  decide

/-- C5: an error code outside the six known ones (`device_flow_disabled`) falls
through the switch, which has no default case: the loop neither ends nor sleeps
and the next pass polls again at once; here the run ends only when the loop
condition finds the expiration passed. -/
theorem unknown_error_polls_again :
    unmarshalAccessToken unknownErrorBody
        = some { AccessToken := "", TokenType := "", Scope := "", Error := "device_flow_disabled",
                 ErrorDescription := "", ErrorUri := "", Interval := 0 } ∧
      main unknownErrorWorld sampleDevice 3
        = some ([.sleep 5000000000, .poll clientId "D1", .poll clientId "D1"],
            .fatal .timedOut) := by
  decide

/-- C6: with `debug = true`, a pass of the loop whose poll returns an empty
access token and the error `expired_token`, `access_denied`,
`unsupported_grant_type` or `incorrect_client_credentials` ends the process in
`log.Fatalln` (status 1) right after that poll: no sleep and no further poll
request follows, and the reason is a function of the response alone. -/
theorem terminal_errors_end_run (w : World) (dc : DeviceCodeResponse) (expiration : Int)
    (fuel k : Nat) (t : AccessTokenResponse)
    (hcheck : w.now (k + 1) < expiration)
    (hpoll : (PollAccessToken clientId dc.DeviceCode (w.poll k)).2 = .token t)
    (hempty : t.AccessToken = "")
    (herr : t.Error = ExpiredToken ∨ t.Error = AccessDenied ∨
      t.Error = UnsupportedGrantType ∨ t.Error = IncorrectClientCredentials) :
    ∃ reason, pollLoop w dc expiration (fuel + 1) k
        = some ([.poll clientId dc.DeviceCode], .fatal reason) ∧
      (Exit.fatal reason).status = 1 ∧
      (t.Error = ExpiredToken → reason = .tokenExpired t.ErrorDescription) ∧
      (t.Error = AccessDenied → reason = .accessDenied) ∧
      (t.Error = UnsupportedGrantType → reason = .unsupportedGrantType t.ErrorDescription) ∧
      (t.Error = IncorrectClientCredentials →
        reason = .incorrectClientCredentials t.ErrorDescription) := by
  rw [pollLoop_token w dc expiration fuel k t hcheck hpoll]
  rcases herr with h | h | h | h
  · exact ⟨.tokenExpired t.ErrorDescription, by
      simp [dispatch, errorSwitch, hempty, h, debug, ExpiredToken, AuthorizationPending,
        SlowDown, Exit.status, AccessDenied, UnsupportedGrantType, IncorrectClientCredentials]⟩
  · exact ⟨.accessDenied, by
      simp [dispatch, errorSwitch, hempty, h, debug, ExpiredToken, AuthorizationPending,
        SlowDown, Exit.status, AccessDenied, UnsupportedGrantType, IncorrectClientCredentials]⟩
  · exact ⟨.unsupportedGrantType t.ErrorDescription, by
      simp [dispatch, errorSwitch, hempty, h, debug, ExpiredToken, AuthorizationPending,
        SlowDown, Exit.status, AccessDenied, UnsupportedGrantType, IncorrectClientCredentials]⟩
  · exact ⟨.incorrectClientCredentials t.ErrorDescription, by
      simp [dispatch, errorSwitch, hempty, h, debug, ExpiredToken, AuthorizationPending,
        SlowDown, Exit.status, AccessDenied, UnsupportedGrantType, IncorrectClientCredentials]⟩

/-- C6 at the `expired_token` answer of the second poll of `wireSlowDownWorld`. -/
theorem terminal_errors_end_run_witness :
    pollLoop wireSlowDownWorld sampleDevice 900000000000 1 1
      = some ([.poll clientId "D1"], .fatal (.tokenExpired "")) := by
  obtain ⟨reason, hrun, -, hexp, -⟩ :=
    terminal_errors_end_run wireSlowDownWorld sampleDevice 900000000000 0 1 expiredToken
      (by decide) (by decide) (by decide) (Or.inl (by decide))
  rw [hrun, hexp (by decide)]
  rfl

/-- C7, as stated, fails: with `expires_in` 0 the expiration instant is the
start time, so the time is at or past it at every reading of the clock, and yet
`main` sleeps the 5 seconds of line 37 before the loop condition is evaluated
for the first time. -/
theorem sleep_without_check_counterexample :
    (∀ k, expirationOf pendingOnceWorld instantDevice ≤ pendingOnceWorld.now k) ∧
      main pendingOnceWorld instantDevice 1 = some ([.sleep 5000000000], .fatal .timedOut) := by
  refine ⟨fun k => ?_, by decide⟩
  have h : expirationOf pendingOnceWorld instantDevice = 0 := by decide
  rw [h]
  simp only [pendingOnceWorld, steadyClock]
  omega

/-- C7, amended: the expiration instant is checked by the loop condition, that
is after each sleep and before each poll request; the first sleep is not
preceded by a check. When the time read by the loop condition of pass `k` is at
or past the expiration instant, the loop exits there with the timed-out
`log.Fatalln`, without a sleep and without a poll request; when the pass before
it polled and was answered `authorization_pending`, that pass polls, sleeps the
interval and the run then ends timed out all the same. The run ends within
`k + 1` passes; every finished run starts with the sleep of line 37, has at
most `k` poll requests, and each of its poll requests follows a loop condition
that read a time strictly before the expiration instant. -/
theorem expiration_checked_before_each_poll (w : World) (dc : DeviceCodeResponse) (fuel k : Nat)
    (hlate : expirationOf w dc ≤ w.now (k + 1)) :
    pollLoop w dc (expirationOf w dc) (fuel + 1) k = some ([], .fatal .timedOut) ∧
      (∀ j t, k = j + 1 → w.now (j + 1) < expirationOf w dc →
        (PollAccessToken clientId dc.DeviceCode (w.poll j)).2 = .token t →
        t.AccessToken = "" → t.Error = AuthorizationPending →
        pollLoop w dc (expirationOf w dc) (fuel + 2) j
          = some ([.poll clientId dc.DeviceCode, .sleep (durationSeconds dc.Interval)],
              .fatal .timedOut)) ∧
      (∃ trace exit, main w dc (k + 1) = some (trace, exit)) ∧
      ∀ n trace exit, main w dc n = some (trace, exit) →
        (∃ rest, trace = .sleep (durationSeconds dc.Interval) :: rest) ∧
        polls trace ≤ k ∧
        ∀ j, j < polls trace → w.now (j + 1) < expirationOf w dc := by
  have hexit : ∀ f, pollLoop w dc (expirationOf w dc) (f + 1) k
      = some ([], .fatal .timedOut) := by
    intro f
    rw [pollLoop, if_neg (not_lt.mpr hlate)]
  refine ⟨hexit fuel, ?_, ?_, ?_⟩
  · intro j t hk hcheck hpoll hempty herr
    subst hk
    rw [pollLoop_pending w dc (expirationOf w dc) (fuel + 1) j t hcheck hpoll hempty herr,
      hexit fuel]
    rfl
  · obtain ⟨r, hr⟩ := pollLoop_terminates w dc (expirationOf w dc) k 0 (by simpa using hlate)
    exact ⟨[Event.sleep (durationSeconds dc.Interval)] ++ r.1, r.2,
      by simp only [main, hr, Run.prepend, Option.map_some']⟩
  · intro n trace exit hrun
    unfold main at hrun
    cases hr : pollLoop w dc (expirationOf w dc) n 0 with
    | none => simp [hr, Run.prepend] at hrun
    | some p =>
      obtain ⟨rest, ex⟩ := p
      simp only [hr, Run.prepend, Option.map_some', Option.some.injEq, Prod.mk.injEq] at hrun
      obtain ⟨rfl, -⟩ := hrun
      have hchecked : ∀ j, j < polls rest → w.now (j + 1) < expirationOf w dc := by
        intro j hj
        simpa using pollLoop_polls_checked w dc (expirationOf w dc) n 0 rest ex hr j hj
      have hpolls : polls ([Event.sleep (durationSeconds dc.Interval)] ++ rest) = polls rest := by
        simp [polls]
      refine ⟨⟨rest, rfl⟩, ?_, ?_⟩
      · rw [hpolls]
        by_contra hgt
        exact absurd (hchecked k (by omega)) (not_lt.mpr hlate)
      · intro j hj
        exact hchecked j (by rwa [hpolls] at hj)

/-- C7, amended, at a device authorization of ten seconds, interval 5, a clock
read every five seconds and pending answers: the first loop condition passes
(5 s), the poll is answered pending, the interval is slept, and the second loop
condition (10 s) ends the run timed out, after exactly one poll request, which
followed a check that read a time before the expiration. -/
theorem expiration_checked_before_each_poll_witness :
    main alwaysPendingWorld shortDevice 2
        = some ([.sleep 5000000000, .poll clientId "D1", .sleep 5000000000],
            .fatal .timedOut) ∧
      polls [Event.sleep 5000000000, Event.poll clientId "D1", Event.sleep 5000000000] ≤ 1 ∧
      alwaysPendingWorld.now 1 < expirationOf alwaysPendingWorld shortDevice ∧
      pollLoop alwaysPendingWorld shortDevice (expirationOf alwaysPendingWorld shortDevice) 1 1
        = some ([], .fatal .timedOut) := by
  obtain ⟨hloop, hpending, -, hruns⟩ :=
    expiration_checked_before_each_poll alwaysPendingWorld shortDevice 0 1 (by decide)
  have hpass := hpending 0 pendingToken rfl (by decide) (by decide) (by decide) (by decide)
  have hmain : main alwaysPendingWorld shortDevice 2
      = some ([.sleep 5000000000, .poll clientId "D1", .sleep 5000000000],
          .fatal .timedOut) := by
    simp only [main, hpass]
    decide
  obtain ⟨-, hle, hchecked⟩ := hruns 2 _ _ hmain
  exact ⟨hmain, hle, hchecked 0 (by decide), hloop⟩

/-- C8: a pass of the loop whose poll gets status 200 and a body decoded with
both `access_token` and `error` empty ends the process in the `log.Fatalln` of
line 72 (status 1) right after that poll: `HandleAccessToken` is not called,
nothing is slept and no further poll request is issued. -/
theorem empty_response_is_fatal (w : World) (dc : DeviceCodeResponse) (expiration : Int)
    (fuel k : Nat) (body : Body) (t : AccessTokenResponse)
    (hcheck : w.now (k + 1) < expiration)
    (hreply : w.poll k = .response 200 (some body))
    (hbody : unmarshalAccessToken body = some t)
    (htok : t.AccessToken = "") (herr : t.Error = "") :
    ∃ trace exit, pollLoop w dc expiration (fuel + 1) k = some (trace, exit) ∧
      trace = [.poll clientId dc.DeviceCode] ∧ exit = .fatal .noTokenNoError ∧
      exit.status = 1 ∧ handled trace = [] ∧ sleeps trace = [] ∧ polls trace = 1 := by
  have hpoll : (PollAccessToken clientId dc.DeviceCode (w.poll k)).2 = .token t := by
    simp [PollAccessToken, hreply, hbody]
  refine ⟨_, _, ?_, rfl, rfl, rfl, rfl, rfl, rfl⟩
  rw [pollLoop_token w dc expiration fuel k t hcheck hpoll]
  simp [dispatch, htok, herr]

/-- C8 at the empty object as body of the first poll. -/
theorem empty_response_is_fatal_witness :
    main emptyBodyWorld sampleDevice 1
      = some ([.sleep 5000000000, .poll clientId "D1"], .fatal .noTokenNoError) := by
  obtain ⟨trace, exit, hrun, rfl, rfl, -⟩ :=
    empty_response_is_fatal emptyBodyWorld sampleDevice (expirationOf emptyBodyWorld sampleDevice)
      0 0 (.object []) AccessTokenResponse.zero (by decide) rfl (by decide) rfl rfl
  simp only [main, hrun]
  decide

/-- C9: when `client.Do` fails on a poll, `PollAccessToken` returns nil and `main`
reads `token.AccessToken` through it: the process ends in the runtime panic of
a nil pointer dereference (status 2), not in a `log.Fatalln`. -/
theorem poll_transport_error_dereferences_nil :
    PollAccessToken clientId "D1" .transportError = ([.poll clientId "D1"], .nil) ∧
      main offlineWorld sampleDevice 1
        = some ([.sleep 5000000000, .poll clientId "D1"], .nilDereference) ∧
      Exit.nilDereference.status = 2 := by
  decide

/-- C10: when `client.Do` fails on the profile request, `HandleAccessToken` returns
nil and `main` reads `userData.Name` through it: the process ends in the
runtime panic of a nil pointer dereference (status 2); no greeting is printed
and the status is not 0. -/
theorem profile_transport_error_dereferences_nil :
    HandleAccessToken sampleToken .transportError
        = ([.profileRequest "bearer gho_x"], .nil) ∧
      main profileOfflineWorld sampleDevice 1
        = some ([.sleep 5000000000, .poll clientId "D1", .handleAccessToken sampleToken,
            .profileRequest "bearer gho_x"], .nilDereference) ∧
      Exit.nilDereference.status ≠ 0 := by
  decide

end DeviceFlow
